import Mathlib

/-!
Verification development for `src/osvr/RenderKit/DistortionParameters.h`
(OSVR-RenderManager).

The header defines the plain-data class `DistortionParameters` with
* a default constructor (`DistortionParameters()`), and
* a converting constructor
  (`DistortionParameters(OSVRDisplayConfiguration&, size_t eye)`)
  that dispatches on the configuration's distortion type.

`OSVRDisplayConfiguration`, `MonoPointMeshTypes.h` and `RGBPointMeshTypes.h`
are external to this fragment; the parts of them that the constructor reads
are modelled from the specification.  Scalar fields (C++ `float` / `double`)
are modelled by `ℚ`: the constructor only copies values, it performs no
arithmetic on them, so exact rationals are a faithful carrier for the
copy-fidelity properties proved here (the `double` to `float` narrowing cast
on the center of projection is modelled as value-preserving).

The `cerr` diagnostic emitted on an unrecognized distortion type is modelled
as an optional output string returned next to the record.  The unchecked
`std::vector` indexing `osvrParams.getEyes()[eye]` is modelled by the
checked lookup `List.getElem?`, so the whole construction returns an
`Option`: `none` models the out-of-range access that C++ leaves undefined.
-/

namespace OSVRRenderManager

/-- Modelled from the spec: a single point-mesh description, an
externally-defined set of sampled displacement points (pairs of 2-D points,
`MonoPointMeshTypes.h` is not part of this fragment).  The component under
study only copies and compares such collections. -/
abbrev MonoPointDistortionMeshDescription :=
  List ((ℚ × ℚ) × (ℚ × ℚ))

/-- Modelled from the spec: the mono point-mesh description collection. -/
abbrev MonoPointDistortionMeshDescriptions :=
  List MonoPointDistortionMeshDescription

/-- Modelled from the spec: the per-channel (red, green, blue) point-mesh
description collection (`RGBPointMeshTypes.h` is not part of this
fragment). -/
structure RGBPointDistortionMeshDescriptions where
  red : MonoPointDistortionMeshDescriptions
  green : MonoPointDistortionMeshDescriptions
  blue : MonoPointDistortionMeshDescriptions
deriving DecidableEq

/-- The empty (value-initialized) per-channel collection. -/
def RGBPointDistortionMeshDescriptions.empty : RGBPointDistortionMeshDescriptions :=
  ⟨[], [], []⟩

/-- Modelled from the spec: the per-eye data of the display configuration,
carrying the eye's center of projection `(x, y)`
(`m_CenterProjX` / `m_CenterProjY` in the source). -/
structure Eye where
  m_CenterProjX : ℚ
  m_CenterProjY : ℚ
deriving DecidableEq

/-- Modelled from the spec: the distortion-type indicator read from the
display configuration — one of the three recognized values, or some other
(unrecognized) value. -/
inductive ConfigDistortionType where
  | RGB_SYMMETRIC_POLYNOMIALS
  | MONO_POINT_SAMPLES
  | RGB_POINT_SAMPLES
  | UNRECOGNIZED
deriving DecidableEq

/-- Modelled from the spec: the slice of `OSVRDisplayConfiguration`
(`osvr_display_configuration.h`, not part of this fragment) that the
converting constructor reads.  Field names follow the accessor names used in
the source, including the source's `Polynomal` spelling. -/
structure OSVRDisplayConfiguration where
  getDistortionType : ConfigDistortionType
  getDistortionTypeString : String
  getDistortionDistanceScaleX : ℚ
  getDistortionDistanceScaleY : ℚ
  getDistortionPolynomalRed : List ℚ
  getDistortionPolynomalGreen : List ℚ
  getDistortionPolynomalBlue : List ℚ
  getEyes : List Eye
  getDistortionMonoPointMeshes : MonoPointDistortionMeshDescriptions
  getDistortionRGBPointMeshes : RGBPointDistortionMeshDescriptions
deriving DecidableEq

/-- `DistortionParameters::Type` from the source (the name `Type` is not
available in Lean): selects which fields of the record are valid. -/
inductive DistortionParametersType where
  | mono_point_samples
  | rgb_point_samples
  | rgb_symmetric_polynomials
deriving DecidableEq

/-- The `DistortionParameters` record, with the fields of the source class. -/
structure DistortionParameters where
  m_type : DistortionParametersType
  m_desiredTriangles : ℕ
  m_monoPointSamples : MonoPointDistortionMeshDescriptions
  m_rgbPointSamples : RGBPointDistortionMeshDescriptions
  m_distortionPolynomialRed : List ℚ
  m_distortionPolynomialGreen : List ℚ
  m_distortionPolynomialBlue : List ℚ
  m_distortionCOP : List ℚ
  m_distortionD : List ℚ
deriving DecidableEq

/-- The default constructor `DistortionParameters()`: the two point-sample
collections are value-initialized (empty) members; the body sets the
remaining fields. -/
def DistortionParameters.defaultRecord : DistortionParameters where
  m_type := DistortionParametersType.rgb_symmetric_polynomials
  m_desiredTriangles := 2
  m_monoPointSamples := []
  m_rgbPointSamples := RGBPointDistortionMeshDescriptions.empty
  m_distortionPolynomialRed := [0, 1]
  m_distortionPolynomialGreen := [0, 1]
  m_distortionPolynomialBlue := [0, 1]
  m_distortionCOP := [1/2, 1/2]
  m_distortionD := [1, 1]

/-- The text written to `std::cerr` in the unrecognized-type branch. -/
def unrecognizedDiagnostic (typeString : String) : String :=
  "DistortionParameters::DistortionParameters(): " ++
    "Unrecognized distortion correction type (" ++ typeString ++ "), ignoring"

/-- The converting constructor
`DistortionParameters(OSVRDisplayConfiguration& osvrParams, size_t eye)`.
It first resets `*this` to the default record, then dispatches on
`osvrParams.getDistortionType()`.  The result carries the optional
diagnostic message; the whole result is `none` exactly when the
`rgb_symmetric_polynomials` branch indexes `getEyes()` out of range. -/
def DistortionParameters.construct (osvrParams : OSVRDisplayConfiguration)
    (eye : ℕ) : Option (DistortionParameters × Option String) :=
  let d := DistortionParameters.defaultRecord
  if osvrParams.getDistortionType = ConfigDistortionType.RGB_SYMMETRIC_POLYNOMIALS then
    match osvrParams.getEyes[eye]? with
    | some eyeData =>
        some ({ d with
          m_type := DistortionParametersType.rgb_symmetric_polynomials
          m_distortionD := [osvrParams.getDistortionDistanceScaleX,
            osvrParams.getDistortionDistanceScaleY]
          m_distortionPolynomialRed := osvrParams.getDistortionPolynomalRed
          m_distortionPolynomialGreen := osvrParams.getDistortionPolynomalGreen
          m_distortionPolynomialBlue := osvrParams.getDistortionPolynomalBlue
          m_distortionCOP := [eyeData.m_CenterProjX, eyeData.m_CenterProjY] }, none)
    | none => none
  else if osvrParams.getDistortionType = ConfigDistortionType.MONO_POINT_SAMPLES then
    some ({ d with
      m_type := DistortionParametersType.mono_point_samples
      m_monoPointSamples := osvrParams.getDistortionMonoPointMeshes }, none)
  else if osvrParams.getDistortionType = ConfigDistortionType.RGB_POINT_SAMPLES then
    some ({ d with
      m_type := DistortionParametersType.rgb_point_samples
      m_rgbPointSamples := osvrParams.getDistortionRGBPointMeshes }, none)
  else
    some (d, some (unrecognizedDiagnostic osvrParams.getDistortionTypeString))

/-- A concrete symmetric-polynomial configuration with one eye,
used by witnesses. -/
def cfgPoly : OSVRDisplayConfiguration where
  getDistortionType := ConfigDistortionType.RGB_SYMMETRIC_POLYNOMIALS
  getDistortionTypeString := "rgb_symmetric_polynomials"
  getDistortionDistanceScaleX := 2
  getDistortionDistanceScaleY := 3
  getDistortionPolynomalRed := [0, 1, 1/10]
  getDistortionPolynomalGreen := [0, 1, 1/5]
  getDistortionPolynomalBlue := [0, 1, 3/10]
  getEyes := [⟨1/4, 3/4⟩]
  getDistortionMonoPointMeshes := []
  getDistortionRGBPointMeshes := RGBPointDistortionMeshDescriptions.empty

/-- A concrete symmetric-polynomial configuration with an empty eye list. -/
def cfgPolyNoEyes : OSVRDisplayConfiguration :=
  { cfgPoly with getEyes := [] }

/-- A concrete mono-point-sample configuration, used by witnesses. -/
def cfgMono : OSVRDisplayConfiguration where
  getDistortionType := ConfigDistortionType.MONO_POINT_SAMPLES
  getDistortionTypeString := "mono_point_samples"
  getDistortionDistanceScaleX := 1
  getDistortionDistanceScaleY := 1
  getDistortionPolynomalRed := [0, 1]
  getDistortionPolynomalGreen := [0, 1]
  getDistortionPolynomalBlue := [0, 1]
  getEyes := []
  getDistortionMonoPointMeshes := [[((0, 0), (1/8, 1/8)), ((1, 1), (7/8, 7/8))]]
  getDistortionRGBPointMeshes := RGBPointDistortionMeshDescriptions.empty

/-- A concrete RGB-point-sample configuration, used by witnesses. -/
def cfgRgb : OSVRDisplayConfiguration where
  getDistortionType := ConfigDistortionType.RGB_POINT_SAMPLES
  getDistortionTypeString := "rgb_point_samples"
  getDistortionDistanceScaleX := 1
  getDistortionDistanceScaleY := 1
  getDistortionPolynomalRed := [0, 1]
  getDistortionPolynomalGreen := [0, 1]
  getDistortionPolynomalBlue := [0, 1]
  getEyes := []
  getDistortionMonoPointMeshes := []
  getDistortionRGBPointMeshes :=
    ⟨[[((0, 0), (0, 0))]], [[((0, 0), (1/2, 1/2))]], [[((0, 0), (1, 1))]]⟩

/-- A concrete configuration with an unrecognized distortion type. -/
def cfgBad : OSVRDisplayConfiguration where
  getDistortionType := ConfigDistortionType.UNRECOGNIZED
  getDistortionTypeString := "vive_unreal_distortion"
  getDistortionDistanceScaleX := 1
  getDistortionDistanceScaleY := 1
  getDistortionPolynomalRed := [0, 1]
  getDistortionPolynomalGreen := [0, 1]
  getDistortionPolynomalBlue := [0, 1]
  getEyes := [⟨1/2, 1/2⟩]
  getDistortionMonoPointMeshes := []
  getDistortionRGBPointMeshes := RGBPointDistortionMeshDescriptions.empty

/-- The record built by the `rgb_symmetric_polynomials` branch of the
converting constructor, for a given configuration and eye datum. -/
def polyBranchRecord (cfg : OSVRDisplayConfiguration) (eyeData : Eye) :
    DistortionParameters :=
  { DistortionParameters.defaultRecord with
    m_type := DistortionParametersType.rgb_symmetric_polynomials
    m_distortionD := [cfg.getDistortionDistanceScaleX,
      cfg.getDistortionDistanceScaleY]
    m_distortionPolynomialRed := cfg.getDistortionPolynomalRed
    m_distortionPolynomialGreen := cfg.getDistortionPolynomalGreen
    m_distortionPolynomialBlue := cfg.getDistortionPolynomalBlue
    m_distortionCOP := [eyeData.m_CenterProjX, eyeData.m_CenterProjY] }

/-- The record built by the `mono_point_samples` branch. -/
def monoBranchRecord (cfg : OSVRDisplayConfiguration) : DistortionParameters :=
  { DistortionParameters.defaultRecord with
    m_type := DistortionParametersType.mono_point_samples
    m_monoPointSamples := cfg.getDistortionMonoPointMeshes }

/-- The record built by the `rgb_point_samples` branch. -/
def rgbBranchRecord (cfg : OSVRDisplayConfiguration) : DistortionParameters :=
  { DistortionParameters.defaultRecord with
    m_type := DistortionParametersType.rgb_point_samples
    m_rgbPointSamples := cfg.getDistortionRGBPointMeshes }

/-- Every record the converting constructor can yield is one of the three
branch records or the default record. -/
theorem construct_cases (cfg : OSVRDisplayConfiguration) (eye : ℕ)
    (p : DistortionParameters) (diag : Option String)
    (h : DistortionParameters.construct cfg eye = some (p, diag)) :
    (∃ eyeData, p = polyBranchRecord cfg eyeData) ∨
    p = monoBranchRecord cfg ∨ p = rgbBranchRecord cfg ∨
    p = DistortionParameters.defaultRecord := by
  revert h
  unfold DistortionParameters.construct
  by_cases h1 : cfg.getDistortionType =
      ConfigDistortionType.RGB_SYMMETRIC_POLYNOMIALS
  · rw [if_pos h1]
    cases hE : cfg.getEyes[eye]? with
    | none => intro h; simp at h
    | some eyeData =>
        intro h
        simp only [Option.some.injEq, Prod.mk.injEq] at h
        exact Or.inl ⟨eyeData, h.1.symm⟩
  · rw [if_neg h1]
    by_cases h2 : cfg.getDistortionType =
        ConfigDistortionType.MONO_POINT_SAMPLES
    · rw [if_pos h2]
      intro h
      simp only [Option.some.injEq, Prod.mk.injEq] at h
      exact Or.inr (Or.inl h.1.symm)
    · rw [if_neg h2]
      by_cases h3 : cfg.getDistortionType =
          ConfigDistortionType.RGB_POINT_SAMPLES
      · rw [if_pos h3]
        intro h
        simp only [Option.some.injEq, Prod.mk.injEq] at h
        exact Or.inr (Or.inr (Or.inl h.1.symm))
      · rw [if_neg h3]
        intro h
        simp only [Option.some.injEq, Prod.mk.injEq] at h
        exact Or.inr (Or.inr (Or.inr h.1.symm))

/-- C1, counterexample: as stated the claim fails — on a configuration of
type `RGB_SYMMETRIC_POLYNOMIALS` with no eyes, constructing at eye index 0
indexes `getEyes()` out of range, which the embedding records as `none`
(undefined behavior in the C++ source). -/
theorem C1_construct_can_fail :
    DistortionParameters.construct cfgPolyNoEyes 0 = none := by
  decide

/-- C1, amended: `Construct(displayConfig, eyeIndex)` succeeds and yields a
usable record for every display configuration and eye index, provided that
in the `rgb_symmetric_polynomials` case the eye index is within the range of
the configuration's eye collection. -/
theorem C1_construct_succeeds (cfg : OSVRDisplayConfiguration) (eye : ℕ)
    (h : cfg.getDistortionType =
        ConfigDistortionType.RGB_SYMMETRIC_POLYNOMIALS →
      eye < cfg.getEyes.length) :
    (DistortionParameters.construct cfg eye).isSome = true := by
  unfold DistortionParameters.construct
  by_cases h1 : cfg.getDistortionType =
      ConfigDistortionType.RGB_SYMMETRIC_POLYNOMIALS
  · rw [if_pos h1, List.getElem?_eq_getElem (h h1)]
    rfl
  · rw [if_neg h1]
    by_cases h2 : cfg.getDistortionType =
        ConfigDistortionType.MONO_POINT_SAMPLES
    · rw [if_pos h2]
      rfl
    · rw [if_neg h2]
      by_cases h3 : cfg.getDistortionType =
          ConfigDistortionType.RGB_POINT_SAMPLES
      · rw [if_pos h3]
        rfl
      · rw [if_neg h3]
        rfl

/-- C1 witness: the amended theorem at a concrete configuration with one eye
and eye index 0. -/
theorem C1_construct_succeeds_witness :
    (DistortionParameters.construct cfgPoly 0).isSome = true :=
  C1_construct_succeeds cfgPoly 0 (fun _ => by decide)

/-- C2: for every configuration whose distortion type is unrecognized and
every eye index, the constructed record equals the default-constructed
record in all fields, and the diagnostic naming the configuration's type
string is emitted to the error stream. -/
theorem C2_unrecognized_yields_default (cfg : OSVRDisplayConfiguration)
    (eye : ℕ)
    (h : cfg.getDistortionType = ConfigDistortionType.UNRECOGNIZED) :
    DistortionParameters.construct cfg eye =
      some (DistortionParameters.defaultRecord,
        some (unrecognizedDiagnostic cfg.getDistortionTypeString)) := by
  simp [DistortionParameters.construct, h]

/-- C2 witness: the theorem at a concrete unrecognized-type configuration. -/
theorem C2_unrecognized_yields_default_witness :
    DistortionParameters.construct cfgBad 0 =
      some (DistortionParameters.defaultRecord,
        some (unrecognizedDiagnostic "vive_unreal_distortion")) :=
  C2_unrecognized_yields_default cfgBad 0 rfl

/-- C3: for every configuration of type `RGB_SYMMETRIC_POLYNOMIALS` and every
valid eye index (one at which the eye lookup yields an eye), the constructed
record has `m_type = rgb_symmetric_polynomials`, `m_distortionD` equal to the
two distance scales, the three polynomials copied verbatim, and
`m_distortionCOP` equal to that eye's center of projection, with no
transformation of any value. -/
theorem C3_polynomial_copy_fidelity (cfg : OSVRDisplayConfiguration)
    (eye : ℕ) (eyeData : Eye)
    (hT : cfg.getDistortionType =
      ConfigDistortionType.RGB_SYMMETRIC_POLYNOMIALS)
    (hE : cfg.getEyes[eye]? = some eyeData) :
    DistortionParameters.construct cfg eye =
      some (polyBranchRecord cfg eyeData, none) := by
  simp [DistortionParameters.construct, polyBranchRecord, hT, hE]

/-- C3 witness: the theorem at a concrete polynomial configuration, eye 0. -/
theorem C3_polynomial_copy_fidelity_witness :
    DistortionParameters.construct cfgPoly 0 =
      some (polyBranchRecord cfgPoly ⟨1/4, 3/4⟩, none) :=
  C3_polynomial_copy_fidelity cfgPoly 0 ⟨1/4, 3/4⟩ rfl rfl

/-- C5: for every configuration of type `MONO_POINT_SAMPLES` and every eye
index, the constructed record has `m_type = mono_point_samples` and
`m_monoPointSamples` equal to the configuration's mono point-mesh
collection, all other fields keeping their default values. -/
theorem C5_mono_point_samples_copy (cfg : OSVRDisplayConfiguration)
    (eye : ℕ)
    (h : cfg.getDistortionType = ConfigDistortionType.MONO_POINT_SAMPLES) :
    DistortionParameters.construct cfg eye =
      some (monoBranchRecord cfg, none) := by
  simp [DistortionParameters.construct, monoBranchRecord, h]

/-- C5 witness: the theorem at a concrete mono-point-sample configuration. -/
theorem C5_mono_point_samples_copy_witness :
    DistortionParameters.construct cfgMono 0 =
      some (monoBranchRecord cfgMono, none) :=
  C5_mono_point_samples_copy cfgMono 0 rfl

/-- C6: for every configuration of type `RGB_POINT_SAMPLES` and every eye
index, the constructed record has `m_type = rgb_point_samples` and
`m_rgbPointSamples` equal to the configuration's per-channel point-mesh
collection. -/
theorem C6_rgb_point_samples_copy (cfg : OSVRDisplayConfiguration)
    (eye : ℕ)
    (h : cfg.getDistortionType = ConfigDistortionType.RGB_POINT_SAMPLES) :
    DistortionParameters.construct cfg eye =
      some (rgbBranchRecord cfg, none) := by
  simp [DistortionParameters.construct, rgbBranchRecord, h]

/-- C6 witness: the theorem at a concrete RGB-point-sample configuration. -/
theorem C6_rgb_point_samples_copy_witness :
    DistortionParameters.construct cfgRgb 0 =
      some (rgbBranchRecord cfgRgb, none) :=
  C6_rgb_point_samples_copy cfgRgb 0 rfl

/-- C7: the default-constructed record has
`m_type = rgb_symmetric_polynomials`, `m_distortionCOP = (0.5, 0.5)`,
`m_distortionD = (1, 1)`, each polynomial equal to `[0, 1]` (the identity,
linear pass-through polynomial), and `m_desiredTriangles = 2`. -/
theorem C7_default_record_fields :
    DistortionParameters.defaultRecord.m_type =
      DistortionParametersType.rgb_symmetric_polynomials ∧
    DistortionParameters.defaultRecord.m_distortionCOP = [1/2, 1/2] ∧
    DistortionParameters.defaultRecord.m_distortionD = [1, 1] ∧
    DistortionParameters.defaultRecord.m_distortionPolynomialRed = [0, 1] ∧
    DistortionParameters.defaultRecord.m_distortionPolynomialGreen = [0, 1] ∧
    DistortionParameters.defaultRecord.m_distortionPolynomialBlue = [0, 1] ∧
    DistortionParameters.defaultRecord.m_desiredTriangles = 2 :=
  ⟨rfl, rfl, rfl, rfl, rfl, rfl, rfl⟩

/-- C4: after every construction, the fields of the variants not selected by
`m_type` keep their default values: the point-sample collections are empty
unless their variant is selected, and in the point-sample cases the
polynomial, center-of-projection and scale fields keep their defaults; the
default-constructed record itself has empty point-sample collections. -/
theorem C4_unselected_variants_stay_default (cfg : OSVRDisplayConfiguration)
    (eye : ℕ) (p : DistortionParameters) (diag : Option String)
    (h : DistortionParameters.construct cfg eye = some (p, diag)) :
    (DistortionParameters.defaultRecord.m_monoPointSamples = [] ∧
      DistortionParameters.defaultRecord.m_rgbPointSamples =
        RGBPointDistortionMeshDescriptions.empty) ∧
    (p.m_type ≠ DistortionParametersType.mono_point_samples →
      p.m_monoPointSamples = []) ∧
    (p.m_type ≠ DistortionParametersType.rgb_point_samples →
      p.m_rgbPointSamples = RGBPointDistortionMeshDescriptions.empty) ∧
    ((p.m_type = DistortionParametersType.mono_point_samples ∨
        p.m_type = DistortionParametersType.rgb_point_samples) →
      p.m_distortionPolynomialRed = [0, 1] ∧
      p.m_distortionPolynomialGreen = [0, 1] ∧
      p.m_distortionPolynomialBlue = [0, 1] ∧
      p.m_distortionCOP = [1/2, 1/2] ∧
      p.m_distortionD = [1, 1]) := by
  rcases construct_cases cfg eye p diag h with ⟨eyeData, rfl⟩ | rfl | rfl | rfl <;>
    simp [polyBranchRecord, monoBranchRecord, rgbBranchRecord,
      DistortionParameters.defaultRecord]

/-- C4 witness: the theorem at a concrete mono-point-sample construction. -/
theorem C4_unselected_variants_stay_default_witness :
    (DistortionParameters.defaultRecord.m_monoPointSamples = [] ∧
      DistortionParameters.defaultRecord.m_rgbPointSamples =
        RGBPointDistortionMeshDescriptions.empty) ∧
    ((monoBranchRecord cfgMono).m_type ≠
        DistortionParametersType.mono_point_samples →
      (monoBranchRecord cfgMono).m_monoPointSamples = []) ∧
    ((monoBranchRecord cfgMono).m_type ≠
        DistortionParametersType.rgb_point_samples →
      (monoBranchRecord cfgMono).m_rgbPointSamples =
        RGBPointDistortionMeshDescriptions.empty) ∧
    (((monoBranchRecord cfgMono).m_type =
        DistortionParametersType.mono_point_samples ∨
      (monoBranchRecord cfgMono).m_type =
        DistortionParametersType.rgb_point_samples) →
      (monoBranchRecord cfgMono).m_distortionPolynomialRed = [0, 1] ∧
      (monoBranchRecord cfgMono).m_distortionPolynomialGreen = [0, 1] ∧
      (monoBranchRecord cfgMono).m_distortionPolynomialBlue = [0, 1] ∧
      (monoBranchRecord cfgMono).m_distortionCOP = [1/2, 1/2] ∧
      (monoBranchRecord cfgMono).m_distortionD = [1, 1]) :=
  C4_unselected_variants_stay_default cfgMono 0 (monoBranchRecord cfgMono)
    none rfl

/-- C8: for every configuration whose distortion type is not
`RGB_SYMMETRIC_POLYNOMIALS`, the eye index does not influence the result of
construction: any two eye indices yield equal results. -/
theorem C8_eye_index_irrelevant_off_polynomial_path
    (cfg : OSVRDisplayConfiguration) (e1 e2 : ℕ)
    (h : cfg.getDistortionType ≠
      ConfigDistortionType.RGB_SYMMETRIC_POLYNOMIALS) :
    DistortionParameters.construct cfg e1 =
      DistortionParameters.construct cfg e2 := by
  unfold DistortionParameters.construct
  rw [if_neg h, if_neg h]

/-- C8 witness: the theorem at a mono-point-sample configuration with eye
indices 0 and 5. -/
theorem C8_eye_index_irrelevant_off_polynomial_path_witness :
    DistortionParameters.construct cfgMono 0 =
      DistortionParameters.construct cfgMono 5 :=
  C8_eye_index_irrelevant_off_polynomial_path cfgMono 0 5 (by decide)

/-- C9: construction is deterministic — constructing twice from the same
configuration and the same eye index yields equal results. -/
theorem C9_construct_deterministic (cfg : OSVRDisplayConfiguration)
    (eye : ℕ) :
    DistortionParameters.construct cfg eye =
      DistortionParameters.construct cfg eye := rfl

/-- C10: `m_desiredTriangles` equals 2 after every construction: the default
constructor sets it to 2 and the converting constructor never modifies it on
any branch. -/
theorem C10_desired_triangles_always_two (cfg : OSVRDisplayConfiguration)
    (eye : ℕ) (p : DistortionParameters) (diag : Option String)
    (h : DistortionParameters.construct cfg eye = some (p, diag)) :
    p.m_desiredTriangles = 2 ∧
    DistortionParameters.defaultRecord.m_desiredTriangles = 2 := by
  rcases construct_cases cfg eye p diag h with ⟨eyeData, rfl⟩ | rfl | rfl | rfl <;>
    exact ⟨rfl, rfl⟩

/-- C10 witness: the theorem at a concrete polynomial-path construction. -/
theorem C10_desired_triangles_always_two_witness :
    (polyBranchRecord cfgPoly ⟨1/4, 3/4⟩).m_desiredTriangles = 2 ∧
    DistortionParameters.defaultRecord.m_desiredTriangles = 2 :=
  C10_desired_triangles_always_two cfgPoly 0
    (polyBranchRecord cfgPoly ⟨1/4, 3/4⟩) none rfl

end OSVRRenderManager
